import Mathlib

/-!
Shallow embedding of the danm cleaner daemon (src/pkg/cleaner/main.go).

The daemon keeps a cluster registry of network endpoint records (DanmEps)
consistent with the containers actually present on the host.  Its core is:
 * `deleteInterface` — the deletion routine for a single endpoint record,
 * `cleanup` — the one-shot startup reconciler,
 * `ProcessEvent` / the `Watch` loop dispatch — the event-driven watcher.

External collaborators (docker runtime, k8s registry, ipam allocator) are
modelled as an `Env` of response functions; every externally visible call the
code issues (including log lines) is recorded in a trace of `Call` values, and
the mutable registry/allocator state is threaded explicitly as `CleanerState`.
-/

set_option autoImplicit false

/-- An endpoint record (`danmtypes.DanmEp`): the fields the cleaner reads. -/
structure DanmEp where
  ns : String
  name : String
  networkID : String
  networkType : String
  cid : String
  address : String
deriving DecidableEq, Repr

/-- A network definition (`danmtypes.DanmNet`): identity of the fetched object. -/
structure DanmNet where
  ns : String
  name : String
deriving DecidableEq, Repr

/-- A container listing entry (`docker.APIContainers`): only the ID is used. -/
structure Container where
  id : String
deriving DecidableEq, Repr

/-- A docker lifecycle event (`docker.APIEvents`): type, action, actor ID and
actor attribute map. -/
structure APIEvents where
  typ : String
  action : String
  id : String
  attributes : List (String × String)
deriving DecidableEq, Repr

/-- One allocated address in a network's pool, keyed by the network's
namespace, name and the address string. -/
structure Alloc where
  netNs : String
  netName : String
  address : String
deriving DecidableEq, Repr

/-- Externally visible calls (and log lines) the cleaner issues. -/
inductive Call where
  | getNet (ns netId : String)
  | free (netNs netName address : String)
  | deleteEp (ns name : String)
  | findByCid (cid : String)
  | logErr (msg : String)
  | logInfo (msg : String)
deriving DecidableEq, Repr

/-- The registry and allocator state the cleaner mutates: the endpoint records
present in the cluster store, and the addresses currently allocated in the
networks' pools. -/
structure CleanerState where
  eps : List DanmEp
  allocated : List Alloc
deriving DecidableEq, Repr

/-- Responses of the external collaborators.  `none` models a failed call
(not found or transient error); the cleaner cannot distinguish the two. -/
structure Env where
  getNet : String → String → Option DanmNet
  freeFails : String → String → String → Bool
  findByCid : String → Option (List DanmEp)
  cidsByHost : String → Option (List DanmEp)
  listExited : Option (List Container)
  listAll : Option (List Container)
  hostname : String

/-- Go map lookup on the actor attribute map: a missing key yields the zero
value `""`, exactly as `containerAttrs["io.kubernetes.docker.type"]` does. -/
def lookupAttr (attrs : List (String × String)) (key : String) : String :=
  match attrs.find? (fun kv => kv.1 == key) with
  | some kv => kv.2
  | none => ""

/-- Modelled from the spec: `ipam.Free` (pkg/ipam, not under src/) releases a
previously-assigned address back to the given network's address pool.  A
release failure is logged and non-fatal, and leaves the address allocated in
the pool — a stuck allocation that only a later reconciliation pass over the
pool (out of scope) could repair.  A successful release clears the address's
pool entry; releasing an address that is not currently allocated leaves the
pool unchanged (clearing an already-clear bitmap bit). -/
def ipamFree (env : Env) (s : CleanerState) (n : DanmNet) (addr : String) :
    List Call × CleanerState :=
  if env.freeFails n.ns n.name addr then
    ([Call.free n.ns n.name addr, Call.logErr ("Address release failed: " ++ addr)], s)
  else
    ([Call.free n.ns n.name addr],
     { s with
       allocated := s.allocated.filter (fun a =>
         !(a.netNs == n.ns && a.netName == n.name && a.address == addr)) })

/-- The deletion routine `deleteInterface`: fetch the net definition; on
failure log and return; otherwise free the address unless the endpoint's
network type is `"ipvlan"`, then delete the endpoint record (keyed by
namespace and name) regardless of the free outcome. -/
def deleteInterface (env : Env) (s : CleanerState) (ep : DanmEp) :
    List Call × CleanerState :=
  match env.getNet ep.ns ep.networkID with
  | none =>
    ([Call.getNet ep.ns ep.networkID,
      Call.logErr ("Cannot fetch net info for net: " ++ ep.networkID)], s)
  | some netInfo =>
    let freeStep : List Call × CleanerState :=
      if ep.networkType != "ipvlan" then ipamFree env s netInfo ep.address
      else ([], s)
    (Call.getNet ep.ns ep.networkID :: freeStep.1 ++ [Call.deleteEp ep.ns ep.name],
     { freeStep.2 with
       eps := freeStep.2.eps.filter (fun e =>
         !(e.ns == ep.ns && e.name == ep.name)) })

/-- Run `deleteInterface` over a batch of endpoints in order, threading the
state and concatenating the traces (the loop bodies of `cleanup` and
`ProcessEvent`). -/
def runBatch (env : Env) (s : CleanerState) : List DanmEp → List Call × CleanerState
  | [] => ([], s)
  | ep :: rest =>
    let step := deleteInterface env s ep
    let next := runBatch env step.2 rest
    (step.1 ++ next.1, next.2)

/-- The action gate of `ProcessEvent`: the literal condition
`event.Action == "kill" || event.Action == "die" || event.Action == "stop" ||
event.Action == "destroy"`. -/
def isDeathAction (a : String) : Bool :=
  a == "kill" || a == "die" || a == "stop" || a == "destroy"

/-- `EventHandler.ProcessEvent`: discard unless the actor attribute
`io.kubernetes.docker.type` equals `"podsandbox"`; on a death action, look up
the endpoints for the event's container ID (a lookup error returns silently),
log the result and delete each returned endpoint. -/
def ProcessEvent (env : Env) (s : CleanerState) (event : APIEvents) :
    List Call × CleanerState :=
  if lookupAttr event.attributes "io.kubernetes.docker.type" != "podsandbox" then
    ([], s)
  else if isDeathAction event.action then
    match env.findByCid event.id with
    | none => ([Call.findByCid event.id], s)
    | some eps =>
      let batch := runBatch env s eps
      (Call.findByCid event.id :: Call.logInfo "eps" :: batch.1, batch.2)
  else ([], s)

/-- The per-message dispatch of the `Watch` loop: only messages whose `Type`
is `"container"` reach `ProcessEvent`. -/
def watchStep (env : Env) (s : CleanerState) (msg : APIEvents) :
    List Call × CleanerState :=
  if msg.typ == "container" then ProcessEvent env s msg else ([], s)

/-- The code's `contains` helper: linear scan of a string slice. -/
def contains : List String → String → Bool
  | [], _ => false
  | z :: rest, y => if z == y then true else contains rest y

/-- First pass of `cleanup`: for every exited container, every endpoint whose
`CID` equals that container's ID, in loop order (outer loop over the exited
listing, inner loop over the endpoint listing). -/
def pass1Targets (eps : List DanmEp) : List Container → List DanmEp
  | [] => []
  | dead :: rest => eps.filter (fun ep => ep.cid == dead.id) ++ pass1Targets eps rest

/-- Second pass of `cleanup`: every endpoint whose `CID` does not occur in the
all-containers listing. -/
def pass2Targets (eps : List DanmEp) (alls : List Container) : List DanmEp :=
  eps.filter (fun ep => !contains (alls.map Container.id) ep.cid)

/-- The endpoints `cleanup` hands to `deleteInterface`, in invocation order. -/
def cleanupTargets (eps : List DanmEp) (deads alls : List Container) : List DanmEp :=
  pass1Targets eps deads ++ pass2Targets eps alls

/-- The startup reconciler `cleanup`: list the host's endpoints, the exited
containers and all containers; on any listing error log and return; otherwise
delete every endpoint of a dead container and every endpoint whose container
is absent from the host. -/
def cleanup (env : Env) (s : CleanerState) : List Call × CleanerState :=
  match env.cidsByHost env.hostname with
  | none => ([Call.logErr "Cleanup failed"], s)
  | some eps =>
    match env.listExited with
    | none => ([Call.logErr "Cleanup failed"], s)
    | some dockerDeads =>
      match env.listAll with
      | none => ([Call.logErr "Cleanup failed"], s)
      | some dockerAll =>
        runBatch env s (cleanupTargets eps dockerDeads dockerAll)

/-- Log lines among the calls. -/
def isLogCall : Call → Bool
  | Call.logErr _ => true
  | Call.logInfo _ => true
  | _ => false

/-! ### Helper lemmas -/

theorem filter_idem {α : Type} (p : α → Bool) (l : List α) :
    (l.filter p).filter p = l.filter p := by
  rw [List.filter_filter]
  simp

theorem contains_eq_true_iff (l : List String) (y : String) :
    contains l y = true ↔ y ∈ l := by
  induction l with
  | nil => simp [contains]
  | cons z rest ih =>
    by_cases hz : z = y
    · simp [contains, hz]
    · simp [contains, hz, ih, Ne.symm hz]

theorem mem_pass1Targets (E : List DanmEp) (deads : List Container) (ep : DanmEp) :
    ep ∈ pass1Targets E deads ↔ ep ∈ E ∧ ep.cid ∈ deads.map Container.id := by
  induction deads with
  | nil => simp [pass1Targets]
  | cons d rest ih =>
    simp only [pass1Targets, List.mem_append, List.mem_filter, ih, List.map_cons,
      List.mem_cons, beq_iff_eq]
    constructor
    · rintro (⟨hE, hcid⟩ | ⟨hE, hcid⟩)
      · exact ⟨hE, Or.inl hcid⟩
      · exact ⟨hE, Or.inr hcid⟩
    · rintro ⟨hE, hcid | hcid⟩
      · exact Or.inl ⟨hE, hcid⟩
      · exact Or.inr ⟨hE, hcid⟩

theorem mem_pass2Targets (E : List DanmEp) (alls : List Container) (ep : DanmEp) :
    ep ∈ pass2Targets E alls ↔ ep ∈ E ∧ ep.cid ∉ alls.map Container.id := by
  simp only [pass2Targets, List.mem_filter, Bool.not_eq_true']
  constructor
  · rintro ⟨hE, hc⟩
    refine ⟨hE, fun hmem => ?_⟩
    rw [← contains_eq_true_iff] at hmem
    rw [hmem] at hc
    exact Bool.noConfusion hc
  · rintro ⟨hE, hmem⟩
    refine ⟨hE, ?_⟩
    cases hcb : contains (alls.map Container.id) ep.cid
    · rfl
    · exact absurd ((contains_eq_true_iff _ _).mp hcb) hmem

theorem count_pass1Targets (E : List DanmEp) (deads : List Container) (ep : DanmEp) :
    (pass1Targets E deads).count ep = (deads.map Container.id).count ep.cid * E.count ep := by
  induction deads with
  | nil => simp [pass1Targets]
  | cons d rest ih =>
    rw [pass1Targets, List.count_append, ih, List.map_cons, List.count_cons]
    by_cases hd : ep.cid = d.id
    · have hfilt : (E.filter (fun e => e.cid == d.id)).count ep = E.count ep := by
        apply List.count_filter
        simp [hd]
      rw [hfilt, if_pos (by simp [hd]), Nat.add_mul, one_mul]
      omega
    · have hfilt : (E.filter (fun e => e.cid == d.id)).count ep = 0 := by
        rw [List.count_eq_zero]
        intro hc
        exact hd (by simpa using (List.mem_filter.mp hc).2)
      rw [hfilt, if_neg (by simp [Ne.symm hd]), Nat.add_zero, Nat.zero_add]

theorem count_pass2Targets (E : List DanmEp) (alls : List Container) (ep : DanmEp) :
    (pass2Targets E alls).count ep =
      if ep.cid ∈ alls.map Container.id then 0 else E.count ep := by
  by_cases hmem : ep.cid ∈ alls.map Container.id
  · rw [if_pos hmem, List.count_eq_zero]
    intro hc
    exact ((mem_pass2Targets E alls ep).mp hc).2 hmem
  · rw [if_neg hmem]
    apply List.count_filter
    cases hcb : contains (alls.map Container.id) ep.cid
    · rfl
    · exact absurd ((contains_eq_true_iff _ _).mp hcb) hmem

theorem deleteInterface_trace_of_fetch_ok (env : Env) (s : CleanerState) (ep : DanmEp)
    (n : DanmNet) (h : env.getNet ep.ns ep.networkID = some n) :
    (deleteInterface env s ep).1 =
      Call.getNet ep.ns ep.networkID ::
        (if ep.networkType != "ipvlan" then
           Call.free n.ns n.name ep.address ::
             (if env.freeFails n.ns n.name ep.address then
                [Call.logErr ("Address release failed: " ++ ep.address)]
              else [])
         else [])
        ++ [Call.deleteEp ep.ns ep.name] := by
  by_cases ht : ep.networkType = "ipvlan"
  · simp [deleteInterface, h, ht]
  · by_cases hf : env.freeFails n.ns n.name ep.address
    · simp [deleteInterface, h, ipamFree, ht, hf]
    · simp [deleteInterface, h, ipamFree, ht, hf]

theorem deleteEp_mem_of_fetch_ok (env : Env) (s : CleanerState) (ep : DanmEp)
    (n : DanmNet) (h : env.getNet ep.ns ep.networkID = some n) :
    Call.deleteEp ep.ns ep.name ∈ (deleteInterface env s ep).1 := by
  rw [deleteInterface_trace_of_fetch_ok env s ep n h]
  simp

theorem mem_runBatch_of_mem (env : Env) (c : Call) (B : DanmEp)
    (hc : ∀ t : CleanerState, c ∈ (deleteInterface env t B).1) :
    ∀ (batch : List DanmEp) (s : CleanerState), B ∈ batch → c ∈ (runBatch env s batch).1 := by
  intro batch
  induction batch with
  | nil => intro s hB; cases hB
  | cons ep rest ih =>
    intro s hB
    rw [runBatch]
    rcases List.mem_cons.mp hB with hBe | hBr
    · exact List.mem_append_left _ (hBe ▸ hc s)
    · exact List.mem_append_right _ (ih _ hBr)

/-! ### Concrete fixtures used by the witness theorems -/

def epW : DanmEp := ⟨"x", "ep1", "net1", "other", "abc", "10.0.0.5"⟩

def epV : DanmEp := ⟨"x", "ep2", "net1", "ipvlan", "def", "10.0.0.6"⟩

def epBad : DanmEp := ⟨"z", "ep3", "net9", "other", "ggg", "10.0.0.7"⟩

def netW : DanmNet := ⟨"x", "net1"⟩

def stW : CleanerState := ⟨[epW], [⟨"x", "net1", "10.0.0.5"⟩]⟩

def envW : Env :=
  ⟨fun ns nid => if ns == "x" then some ⟨ns, nid⟩ else none,
   fun _ _ _ => true,
   fun _ => some [epW],
   fun _ => some [epW],
   some [⟨"abc"⟩],
   some [⟨"abc"⟩, ⟨"run1"⟩],
   "h1"⟩

def envOk : Env :=
  ⟨fun ns nid => if ns == "x" then some ⟨ns, nid⟩ else none,
   fun _ _ _ => false,
   fun _ => some [epW],
   fun _ => some [epW],
   some [⟨"abc"⟩],
   some [⟨"abc"⟩, ⟨"run1"⟩],
   "h1"⟩

def epRun : DanmEp := ⟨"x", "ep4", "net1", "other", "run1", "10.0.0.8"⟩

def envW2 : Env :=
  ⟨fun ns nid => if ns == "x" then some ⟨ns, nid⟩ else none,
   fun _ _ _ => true,
   fun _ => some [epW],
   fun _ => some [epW, epRun],
   some [⟨"abc"⟩],
   some [⟨"abc"⟩, ⟨"run1"⟩],
   "h1"⟩

def envFail : Env :=
  ⟨fun _ _ => none, fun _ _ _ => false, fun _ => none, fun _ => none, none, none, "h1"⟩

def evDestroy : APIEvents :=
  ⟨"container", "destroy", "abc", [("io.kubernetes.docker.type", "podsandbox")]⟩

def evNet : APIEvents :=
  ⟨"network", "die", "abc", [("io.kubernetes.docker.type", "podsandbox")]⟩

def evCreate : APIEvents :=
  ⟨"container", "create", "abc", [("io.kubernetes.docker.type", "podsandbox")]⟩

/-! ### Claim theorems -/

/-- Claim C1: invoking the deletion routine twice on the same endpoint yields
the same final state as invoking it once; when the net fetch succeeds the
final state has the registry record absent, and (for a non-exempt network
type whose release succeeded) the endpoint's address no longer allocated —
so across the two invocations the address moves from allocated to free at
most once. -/
theorem deleteInterface_idempotent (env : Env) (s : CleanerState) (ep : DanmEp) :
    (deleteInterface env (deleteInterface env s ep).2 ep).2 = (deleteInterface env s ep).2
    ∧ ∀ n, env.getNet ep.ns ep.networkID = some n →
        (∀ e ∈ (deleteInterface env s ep).2.eps, ¬(e.ns = ep.ns ∧ e.name = ep.name))
        ∧ (ep.networkType ≠ "ipvlan" →
            env.freeFails n.ns n.name ep.address = false →
            (⟨n.ns, n.name, ep.address⟩ : Alloc) ∉ (deleteInterface env s ep).2.allocated) := by
  constructor
  · cases h : env.getNet ep.ns ep.networkID with
    | none => simp [deleteInterface, h]
    | some n =>
      by_cases ht : ep.networkType = "ipvlan"
      · simp [deleteInterface, h, ht, filter_idem]
      · by_cases hf : env.freeFails n.ns n.name ep.address
        · simp [deleteInterface, h, ht, ipamFree, hf, filter_idem]
        · simp [deleteInterface, h, ht, ipamFree, hf, filter_idem]
  · intro n h
    constructor
    · intro e he
      by_cases ht : ep.networkType = "ipvlan"
      · simp [deleteInterface, h, ht, List.mem_filter] at he
        exact fun hcon => he.2.elim (fun hx => hx hcon.1) (fun hx => hx hcon.2)
      · by_cases hf : env.freeFails n.ns n.name ep.address
        · simp [deleteInterface, h, ht, ipamFree, hf, List.mem_filter] at he
          exact fun hcon => he.2.elim (fun hx => hx hcon.1) (fun hx => hx hcon.2)
        · simp [deleteInterface, h, ht, ipamFree, hf, List.mem_filter] at he
          exact fun hcon => he.2.elim (fun hx => hx hcon.1) (fun hx => hx hcon.2)
    · intro ht hfree hmem
      simp [deleteInterface, h, ht, ipamFree, hfree, List.mem_filter] at hmem

theorem deleteInterface_idempotent_witness :
    (deleteInterface envOk (deleteInterface envOk stW epW).2 epW).2 =
      (deleteInterface envOk stW epW).2
    ∧ (⟨"x", "net1", "10.0.0.5"⟩ : Alloc) ∉ (deleteInterface envOk stW epW).2.allocated :=
  ⟨(deleteInterface_idempotent envOk stW epW).1,
   ((deleteInterface_idempotent envOk stW epW).2 netW rfl).2 (by decide) rfl⟩

/-- Claim C2: with successful listings E, deads, alls, the reconciler runs the
deletion routine exactly on the endpoints whose CID is an exited container's
ID or absent from the all-containers listing, and never on an endpoint whose
CID belongs to a running (listed but not exited) container. -/
theorem cleanup_orphan_detection (env : Env) (s : CleanerState)
    (E : List DanmEp) (deads alls : List Container)
    (hE : env.cidsByHost env.hostname = some E)
    (hD : env.listExited = some deads)
    (hA : env.listAll = some alls) :
    cleanup env s = runBatch env s (cleanupTargets E deads alls)
    ∧ (∀ ep, ep ∈ cleanupTargets E deads alls ↔
        ep ∈ E ∧ (ep.cid ∈ deads.map Container.id ∨ ep.cid ∉ alls.map Container.id))
    ∧ (∀ ep, ep ∈ E → ep.cid ∈ alls.map Container.id → ep.cid ∉ deads.map Container.id →
        ep ∉ cleanupTargets E deads alls) := by
  refine ⟨by simp [cleanup, hE, hD, hA], fun ep => ?_, fun ep hEp hall hdead hmem => ?_⟩
  · simp only [cleanupTargets, List.mem_append, mem_pass1Targets, mem_pass2Targets]
    tauto
  · rcases List.mem_append.mp hmem with h1 | h2
    · exact hdead ((mem_pass1Targets E deads ep).mp h1).2
    · exact ((mem_pass2Targets E alls ep).mp h2).2 hall

theorem cleanup_orphan_detection_witness :
    cleanup envW stW = runBatch envW stW (cleanupTargets [epW] [⟨"abc"⟩] [⟨"abc"⟩, ⟨"run1"⟩])
    ∧ epRun ∉ cleanupTargets [epW, epRun] [⟨"abc"⟩] [⟨"abc"⟩, ⟨"run1"⟩] :=
  ⟨(cleanup_orphan_detection envW stW [epW] [⟨"abc"⟩] [⟨"abc"⟩, ⟨"run1"⟩] rfl rfl rfl).1,
   (cleanup_orphan_detection envW2 stW [epW, epRun] [⟨"abc"⟩] [⟨"abc"⟩, ⟨"run1"⟩] rfl rfl rfl).2.2
     epRun (by decide) (by decide) (by decide)⟩

/-- Claim C3: for an endpoint of the exempt network type `"ipvlan"` the
deletion routine never issues an address release, yet (when the net fetch
succeeds) still deletes the endpoint record; for any other type it issues the
release, before the record delete. -/
theorem deleteInterface_type_conditional_release (env : Env) (s : CleanerState) (ep : DanmEp) :
    (ep.networkType = "ipvlan" →
      ∀ a b c, Call.free a b c ∉ (deleteInterface env s ep).1)
    ∧ ∀ n, env.getNet ep.ns ep.networkID = some n →
        (ep.networkType = "ipvlan" →
          (deleteInterface env s ep).1 =
            [Call.getNet ep.ns ep.networkID, Call.deleteEp ep.ns ep.name])
        ∧ (ep.networkType ≠ "ipvlan" →
          (deleteInterface env s ep).1 =
            Call.getNet ep.ns ep.networkID :: Call.free n.ns n.name ep.address ::
              ((if env.freeFails n.ns n.name ep.address then
                  [Call.logErr ("Address release failed: " ++ ep.address)]
                else [])
               ++ [Call.deleteEp ep.ns ep.name])) := by
  constructor
  · intro ht a b c
    cases h : env.getNet ep.ns ep.networkID with
    | none => simp [deleteInterface, h]
    | some n => simp [deleteInterface, h, ht]
  · intro n h
    constructor
    · intro ht
      simp [deleteInterface, h, ht]
    · intro ht
      rw [deleteInterface_trace_of_fetch_ok env s ep n h]
      simp [ht]

theorem deleteInterface_type_conditional_release_witness :
    Call.free "x" "net1" "10.0.0.6" ∉ (deleteInterface envW stW epV).1
    ∧ (deleteInterface envW stW epV).1 = [Call.getNet "x" "net1", Call.deleteEp "x" "ep2"] :=
  ⟨(deleteInterface_type_conditional_release envW stW epV).1 rfl "x" "net1" "10.0.0.6",
   ((deleteInterface_type_conditional_release envW stW epV).2 ⟨"x", "net1"⟩ rfl).1 rfl⟩

/-- Claim C4: when the net-definition fetch fails, the deletion routine logs
and returns: the trace holds only the fetch and the log line — no release, no
record delete — and the state is unchanged. -/
theorem deleteInterface_fetch_failure (env : Env) (s : CleanerState) (ep : DanmEp)
    (h : env.getNet ep.ns ep.networkID = none) :
    deleteInterface env s ep =
      ([Call.getNet ep.ns ep.networkID,
        Call.logErr ("Cannot fetch net info for net: " ++ ep.networkID)], s) := by
  simp [deleteInterface, h]

theorem deleteInterface_fetch_failure_witness :
    deleteInterface envFail stW epW =
      ([Call.getNet "x" "net1", Call.logErr ("Cannot fetch net info for net: " ++ "net1")], stW) :=
  deleteInterface_fetch_failure envFail stW epW rfl

/-- Claim C5: after a successful net fetch for a non-exempt endpoint, the
record delete is issued whatever the release outcome is, and a failed release
is logged. -/
theorem deleteInterface_release_failure_still_deletes (env : Env) (s : CleanerState)
    (ep : DanmEp) (n : DanmNet)
    (h : env.getNet ep.ns ep.networkID = some n)
    (ht : ep.networkType ≠ "ipvlan") :
    Call.deleteEp ep.ns ep.name ∈ (deleteInterface env s ep).1
    ∧ (env.freeFails n.ns n.name ep.address = true →
        Call.logErr ("Address release failed: " ++ ep.address) ∈ (deleteInterface env s ep).1) := by
  refine ⟨deleteEp_mem_of_fetch_ok env s ep n h, fun hf => ?_⟩
  rw [deleteInterface_trace_of_fetch_ok env s ep n h]
  simp [ht, hf]

theorem deleteInterface_release_failure_still_deletes_witness :
    Call.deleteEp "x" "ep1" ∈ (deleteInterface envW stW epW).1
    ∧ Call.logErr ("Address release failed: " ++ "10.0.0.5") ∈ (deleteInterface envW stW epW).1 :=
  ⟨(deleteInterface_release_failure_still_deletes envW stW epW netW rfl (by decide)).1,
   (deleteInterface_release_failure_still_deletes envW stW epW netW rfl (by decide)).2 rfl⟩

/-- Claim C6: a message whose type is not `"container"`, or whose pod-sandbox
actor attribute is absent or not `"podsandbox"`, produces no call at all —
the trace is empty and the state untouched, whatever the action is. -/
theorem watchStep_event_filtering (env : Env) (s : CleanerState) (msg : APIEvents)
    (h : msg.typ ≠ "container" ∨
         lookupAttr msg.attributes "io.kubernetes.docker.type" ≠ "podsandbox") :
    watchStep env s msg = ([], s) := by
  rcases h with h | h
  · simp [watchStep, h]
  · by_cases htyp : msg.typ = "container"
    · simp [watchStep, htyp, ProcessEvent, h]
    · simp [watchStep, htyp]

theorem watchStep_event_filtering_witness :
    watchStep envW stW evNet = ([], stW) :=
  watchStep_event_filtering envW stW evNet (Or.inl (by decide))

/-- Claim C7: for a container-typed pod-sandbox message, an action outside
{kill, die, stop, destroy} produces no call at all; a death action triggers
the lookup by container ID, followed — when the lookup returns endpoints — by
a deletion-routine run over each returned endpoint. -/
theorem processEvent_action_gating (env : Env) (s : CleanerState) (event : APIEvents)
    (htyp : event.typ = "container")
    (hsand : lookupAttr event.attributes "io.kubernetes.docker.type" = "podsandbox") :
    (isDeathAction event.action = false → watchStep env s event = ([], s))
    ∧ (isDeathAction event.action = true →
        (∀ eps, env.findByCid event.id = some eps →
          watchStep env s event =
            (Call.findByCid event.id :: Call.logInfo "eps" :: (runBatch env s eps).1,
             (runBatch env s eps).2))
        ∧ (env.findByCid event.id = none →
            watchStep env s event = ([Call.findByCid event.id], s))) := by
  refine ⟨fun hact => ?_, fun hact => ⟨fun eps heps => ?_, fun hnone => ?_⟩⟩
  · simp [watchStep, htyp, ProcessEvent, hsand, hact]
  · simp [watchStep, htyp, ProcessEvent, hsand, hact, heps]
  · simp [watchStep, htyp, ProcessEvent, hsand, hact, hnone]

theorem processEvent_action_gating_witness :
    watchStep envW stW evCreate = ([], stW)
    ∧ watchStep envW stW evDestroy =
        (Call.findByCid "abc" :: Call.logInfo "eps" :: (runBatch envW stW [epW]).1,
         (runBatch envW stW [epW]).2) :=
  ⟨(processEvent_action_gating envW stW evCreate rfl rfl).1 rfl,
   ((processEvent_action_gating envW stW evDestroy rfl rfl).2 rfl).1 [epW] rfl⟩

/-- Counterexample to claim C8 as stated: at a container-typed pod-sandbox
destroy event whose registry lookup fails, `ProcessEvent` emits no log line at
all — the trace is just the failed lookup — so the failure is not "logged
with enough context". -/
theorem processEvent_lookup_failure_not_logged :
    ProcessEvent envFail stW evDestroy = ([Call.findByCid "abc"], stW)
    ∧ (ProcessEvent envFail stW evDestroy).1.any isLogCall = false := by
  exact ⟨rfl, rfl⟩

/-- Claim C8 (amended): a registry lookup failure during event handling makes
the handler return silently — no log line, no deletion, no allocator call —
and the watcher goes on; a lookup returning zero records just logs the empty
result and performs no deletions. -/
theorem processEvent_lookup_failure_silent (env : Env) (s : CleanerState) (event : APIEvents)
    (htyp : event.typ = "container")
    (hsand : lookupAttr event.attributes "io.kubernetes.docker.type" = "podsandbox")
    (hact : isDeathAction event.action = true) :
    (env.findByCid event.id = none →
      watchStep env s event = ([Call.findByCid event.id], s))
    ∧ (env.findByCid event.id = some [] →
      watchStep env s event = ([Call.findByCid event.id, Call.logInfo "eps"], s)) := by
  constructor
  · intro hnone
    simp [watchStep, htyp, ProcessEvent, hsand, hact, hnone]
  · intro hnil
    simp [watchStep, htyp, ProcessEvent, hsand, hact, hnil, runBatch]

theorem processEvent_lookup_failure_silent_witness :
    watchStep envFail stW evDestroy = ([Call.findByCid "abc"], stW) :=
  (processEvent_lookup_failure_silent envFail stW evDestroy rfl rfl rfl).1 rfl

/-- Claim C9: the deletion routine swallows all failures, so in a batch where
the net fetch fails for endpoint A but succeeds for endpoint B, B is still
fully deleted: its record delete (and, for a non-exempt type, its address
release) appears in the batch trace. -/
theorem runBatch_fault_isolation (env : Env) (s : CleanerState) (batch : List DanmEp)
    (A B : DanmEp) (nB : DanmNet)
    (hA : A ∈ batch) (hAfail : env.getNet A.ns A.networkID = none)
    (hB : B ∈ batch) (hBok : env.getNet B.ns B.networkID = some nB) :
    Call.deleteEp B.ns B.name ∈ (runBatch env s batch).1
    ∧ (B.networkType ≠ "ipvlan" →
        Call.free nB.ns nB.name B.address ∈ (runBatch env s batch).1) := by
  constructor
  · exact mem_runBatch_of_mem env _ B
      (fun t => deleteEp_mem_of_fetch_ok env t B nB hBok) batch s hB
  · intro ht
    apply mem_runBatch_of_mem env _ B (fun t => ?_) batch s hB
    rw [deleteInterface_trace_of_fetch_ok env t B nB hBok]
    simp [ht]

theorem runBatch_fault_isolation_witness :
    Call.deleteEp "x" "ep1" ∈ (runBatch envW stW [epBad, epW]).1
    ∧ Call.free "x" "net1" "10.0.0.5" ∈ (runBatch envW stW [epBad, epW]).1 :=
  ⟨(runBatch_fault_isolation envW stW [epBad, epW] epBad epW netW
      (by decide) rfl (by decide) rfl).1,
   (runBatch_fault_isolation envW stW [epBad, epW] epBad epW netW
      (by decide) rfl (by decide) rfl).2 (by decide)⟩

/-- Claim C10: when the exited listing is contained in the all-containers
listing and listed IDs are distinct, the reconciler's two passes are disjoint
and each endpoint entry is handed to the deletion routine at most once per
sweep. -/
theorem cleanup_passes_disjoint (E : List DanmEp) (deads alls : List Container)
    (hsub : ∀ d ∈ deads, d.id ∈ alls.map Container.id)
    (hndD : (deads.map Container.id).Nodup)
    (hndA : (alls.map Container.id).Nodup) :
    (∀ ep, ¬(ep ∈ pass1Targets E deads ∧ ep ∈ pass2Targets E alls))
    ∧ ∀ ep, (cleanupTargets E deads alls).count ep ≤ E.count ep := by
  constructor
  · rintro ep ⟨h1, h2⟩
    have hcid := ((mem_pass1Targets E deads ep).mp h1).2
    rcases List.mem_map.mp hcid with ⟨d, hd, hdeq⟩
    exact ((mem_pass2Targets E alls ep).mp h2).2 (hdeq ▸ hsub d hd)
  · intro ep
    rw [cleanupTargets, List.count_append, count_pass1Targets, count_pass2Targets]
    by_cases hall : ep.cid ∈ alls.map Container.id
    · rw [if_pos hall, Nat.add_zero]
      have hle : (deads.map Container.id).count ep.cid ≤ 1 :=
        List.nodup_iff_count_le_one.mp hndD ep.cid
      calc (deads.map Container.id).count ep.cid * E.count ep
          ≤ 1 * E.count ep := Nat.mul_le_mul_right _ hle
        _ = E.count ep := one_mul _
    · rw [if_neg hall]
      have hzero : (deads.map Container.id).count ep.cid = 0 := by
        rw [List.count_eq_zero]
        intro hmem
        rcases List.mem_map.mp hmem with ⟨d, hd, hdeq⟩
        exact hall (hdeq ▸ hsub d hd)
      rw [hzero, Nat.zero_mul, Nat.zero_add]

theorem cleanup_passes_disjoint_witness :
    ¬(epW ∈ pass1Targets [epW] [⟨"abc"⟩] ∧ epW ∈ pass2Targets [epW] [⟨"abc"⟩, ⟨"run1"⟩])
    ∧ (cleanupTargets [epW] [⟨"abc"⟩] [⟨"abc"⟩, ⟨"run1"⟩]).count epW ≤ [epW].count epW :=
  ⟨(cleanup_passes_disjoint [epW] [⟨"abc"⟩] [⟨"abc"⟩, ⟨"run1"⟩]
      (by decide) (by decide) (by decide)).1 epW,
   (cleanup_passes_disjoint [epW] [⟨"abc"⟩] [⟨"abc"⟩, ⟨"run1"⟩]
      (by decide) (by decide) (by decide)).2 epW⟩
